import Mathlib

/-!
Verification of the cloud-cost-optimization-dashboard repository.

The dashboard (`src/app.py`) loads a CSV of billing records, derives
`total_cost`, a fixed 70/30 used/idle split, a 1–5 FinOps score from the
idle-to-total ratio, rule-based tips, and CSV/Excel/PDF exports.  The
simulator (`simulator/simulate_costs.py`) appends one random record to the
CSV per loop iteration.

Numbers are modelled with exact rationals; the one place where IEEE
semantics matters — the unguarded `idle_cost / total_cost` at
`total_cost = 0`, which numpy evaluates to NaN — is modelled by the `NV`
type, whose `nan` element compares false against every threshold, exactly
as NaN does in Python comparisons.
-/

namespace CloudCost

/-- A numeric value of the dashboard arithmetic: an exact rational, or the
NaN produced by the unguarded `0.0 / 0.0` division on an empty table. -/
inductive NV where
  | nan : NV
  | val : ℚ → NV
deriving DecidableEq

/-- Division as the dashboard's numpy floats perform it: `0/0` (and more
generally division by zero) yields NaN instead of raising. -/
def nvDiv : NV → NV → NV
  | NV.nan, _ => NV.nan
  | _, NV.nan => NV.nan
  | NV.val a, NV.val b => if b = 0 then NV.nan else NV.val (a / b)

/-- `x < c` comparison against a rational threshold; NaN compares false,
as in Python/numpy. -/
def nvLtQ : NV → ℚ → Bool
  | NV.nan, _ => false
  | NV.val a, c => decide (a < c)

/-- `x > c` comparison against a rational threshold; NaN compares false. -/
def nvGtQ : NV → ℚ → Bool
  | NV.nan, _ => false
  | NV.val a, c => decide (c < a)

/-- `used_cost = total_cost * 0.7` (app.py line 48). -/
def used_cost (total : ℚ) : ℚ := total * (7 / 10)

/-- `idle_cost = total_cost * 0.3` (app.py line 49). -/
def idle_cost (total : ℚ) : ℚ := total * (3 / 10)

/-- The ratio `idle_cost / total_cost` appearing in every branch of the
scoring chain (app.py lines 52–61). -/
def idleRatio (total : ℚ) : NV :=
  nvDiv (NV.val (idle_cost total)) (NV.val total)

/-- The FinOps score (app.py lines 52–61): a chain of strict threshold
comparisons on `idle_cost / total_cost` with cutoffs 0.2, 0.3, 0.4, 0.5,
falling through to 1. -/
def finops_score (total : ℚ) : ℕ :=
  if nvLtQ (idleRatio total) (1 / 5) then 5
  else if nvLtQ (idleRatio total) (3 / 10) then 4
  else if nvLtQ (idleRatio total) (2 / 5) then 3
  else if nvLtQ (idleRatio total) (1 / 2) then 2
  else 1

/-- The "High idle cost detected" tip condition (app.py line 125):
`idle_cost / total_cost > 0.3`, a strict comparison. -/
def highIdleTip (total : ℚ) : Bool := nvGtQ (idleRatio total) (3 / 10)

/-- One billing record as the aggregate pipeline sees it: a service name
and a cost amount. -/
structure CostRecord where
  service : String
  cost : ℚ
deriving DecidableEq

/-- `total_cost = df["cost_usd"].sum()` (app.py line 45). -/
def totalCost (df : List CostRecord) : ℚ := (df.map CostRecord.cost).sum

/-- The idle cost the dashboard derives from a table: 30% of its summed
total (app.py lines 45, 49). -/
def tableIdleCost (df : List CostRecord) : ℚ := idle_cost (totalCost df)

/-- Peak (maximum) cost among a list of records, 0 when empty. -/
def peakCost (df : List CostRecord) : ℚ := (df.map CostRecord.cost).foldr max 0

/-- Per-service peak costs: for each distinct service name, the maximum
cost among that service's records. -/
def servicePeaks (df : List CostRecord) : List ℚ :=
  (df.map CostRecord.service).dedup.map
    (fun s => peakCost (df.filter (fun r => r.service = s)))

/-- Modelled from the spec: the glossary's definition of idle cost,
"estimated via a fixed percentage of peak cost per service" — a fixed
percentage `p` applied to the per-service peak costs.  This definition
follows the spec's words; no code in the repository computes it. -/
def glossaryIdleCost (p : ℚ) (df : List CostRecord) : ℚ :=
  p * (servicePeaks df).sum

/-- A raw CSV row as read from disk: the textual date and cost fields
(`load_data` parses both; the enumerated columns pass through untouched
and are omitted here). -/
structure RawRow where
  date : String
  cost : String
deriving DecidableEq

/-- A loaded row after `load_data`: a parsed date (modelled as a numeric
timestamp) and a numeric cost. -/
structure Row where
  date : ℕ
  cost : ℚ
deriving DecidableEq

/-- `load_data` (app.py lines 22–37): parse dates with coercion to null
(`errors="coerce"`), drop rows whose date is null, parse costs with
coercion to null and fill nulls with 0.  The pandas parsers are external;
they enter as the `parseDate`/`parseCost` parameters, `none` standing for
the null a coercion produces. -/
def load_data (parseDate : String → Option ℕ) (parseCost : String → Option ℚ)
    (rows : List RawRow) : List Row :=
  rows.filterMap (fun r =>
    match parseDate r.date with
    | none => none
    | some d => some { date := d, cost := (parseCost r.cost).getD 0 })

/-- The spec's description of the loader, written directly from its words:
keep exactly the rows whose date parses, and zero-fill every unparseable
cost.  Compared against `load_data` in the C7 refinement theorem. -/
def cleanedRows (parseDate : String → Option ℕ) (parseCost : String → Option ℚ)
    (rows : List RawRow) : List Row :=
  (rows.filter (fun r => (parseDate r.date).isSome)).map
    (fun r => { date := (parseDate r.date).getD 0, cost := (parseCost r.cost).getD 0 })

/-- The CSV download (app.py lines 163–170): `df.to_csv` re-serializes the
in-memory table field by field, the serializers being external library
code passed in as parameters. -/
def exportCsv (showDate : ℕ → String) (showCost : ℚ → String)
    (df : List Row) : List RawRow :=
  df.map (fun r => { date := showDate r.date, cost := showCost r.cost })

/-- What the PDF column renders: a download button holding the generated
document, or the fallback warning message. -/
inductive PdfResult where
  | download (content : List String)
  | warning (msg : String)
deriving DecidableEq

/-- The PDF export branch (app.py lines 184–211): the `try` body — the
reportlab import plus document build, abstracted as the `deps` outcome —
either succeeds, producing the five summary paragraphs, or raises, in
which case the `except Exception` arm degrades to a warning message. -/
def pdfExport (deps : Except String Unit) (total used idle : ℚ) (score : ℕ) :
    PdfResult :=
  match deps with
  | Except.ok _ =>
      PdfResult.download
        ["Cloud Cost Optimization Report",
         "Total Cost: " ++ toString total,
         "Used Cost: " ++ toString used,
         "Idle Cost: " ++ toString idle,
         "FinOps Score: " ++ toString score ++ "/5"]
  | Except.error _ =>
      PdfResult.warning "📄 PDF export requires reportlab (optional)"

/-- The caption rendered after the download section (app.py line 216). -/
def footer : String := "🚀 FinOps-Ready | Portfolio-Grade Cloud Cost Dashboard"

/-- The tail of the render pass: the PDF column followed by the footer,
which the PDF branch's outcome must not disturb. -/
def renderTail (deps : Except String Unit) (total used idle : ℚ) (score : ℕ) :
    PdfResult × String :=
  (pdfExport deps total used idle score, footer)

/-- One record the simulator writes (simulate_costs.py lines 40–49). -/
structure SimRecord where
  date : ℕ
  provider : String
  service : String
  region : String
  cost : ℚ
deriving DecidableEq

/-- One iteration of the simulation loop (simulate_costs.py lines 39–56):
`df.to_csv(DATA_PATH, mode="a", header=False)` appends the single new
record to the end of the file. -/
def simStep (file : List SimRecord) (r : SimRecord) : List SimRecord :=
  file ++ [r]

-- Helper lemmas about the scoring chain.

lemma idleRatio_of_ne_zero (t : ℚ) (ht : t ≠ 0) :
    idleRatio t = NV.val (3 / 10) := by
  simp only [idleRatio, idle_cost, nvDiv, if_neg ht]
  congr 1
  field_simp
  ring

lemma finops_score_of_pos (t : ℚ) (ht : 0 < t) : finops_score t = 3 := by
  have h := idleRatio_of_ne_zero t (ne_of_gt ht)
  simp [finops_score, h, nvLtQ]
  norm_num

/-- C1 counterexample: at total cost 45 the code yields score 3, not the
score 5 the claim asserts. -/
theorem c1_counterexample : finops_score 45 ≠ 5 := by
  rw [finops_score_of_pos 45 (by norm_num)]
  decide

/-- C1 (amended): for an input table whose total cost is 45, under the
fixed 70/30 split the FinOps scoring computation yields score 3 (the idle
ratio is exactly 3/10, which fails `< 0.3` and passes `< 0.4`). -/
theorem c1_amended_score_at_45 : finops_score 45 = 3 :=
  finops_score_of_pos 45 (by norm_num)

/-- C3: for every total cost strictly greater than zero, the idle-to-total
ratio equals exactly 3/10, the FinOps score equals 3 regardless of the
total, and the 'High idle cost detected' tip (strict `> 0.3`) is never
emitted. -/
theorem c3_ratio_fixed_score_3_no_tip (t : ℚ) (ht : 0 < t) :
    idleRatio t = NV.val (3 / 10) ∧ finops_score t = 3 ∧ highIdleTip t = false := by
  have hr := idleRatio_of_ne_zero t (ne_of_gt ht)
  refine ⟨hr, finops_score_of_pos t ht, ?_⟩
  simp [highIdleTip, hr, nvGtQ]

/-- C3 witness: the property instantiated at total cost 45. -/
theorem c3_witness :
    (0 : ℚ) < 45 ∧
      (idleRatio 45 = NV.val (3 / 10) ∧ finops_score 45 = 3 ∧ highIdleTip 45 = false) :=
  ⟨by norm_num, c3_ratio_fixed_score_3_no_tip 45 (by norm_num)⟩

/-- C4 counterexample: on the empty table the total is 0 and the score
falls through to 1 — the bottom tier, not the top-tier or
"insufficient data" result the claim asserts (no such result exists in
the code). -/
theorem c4_counterexample : totalCost [] = 0 ∧ finops_score 0 = 1 ∧ finops_score 0 ≠ 5 := by
  have h : idleRatio 0 = NV.nan := by simp [idleRatio, idle_cost, nvDiv]
  refine ⟨rfl, ?_, ?_⟩ <;> simp [finops_score, h, nvLtQ]

/-- C4 (amended): for an empty input table the total cost is 0, the
unguarded division yields NaN, every threshold comparison on NaN is false,
and the score falls through to the defined, non-crashing bottom value 1 —
NaN propagation rather than a handled error or a top-tier result. -/
theorem c4_empty_table_nan_score_1 :
    totalCost [] = 0 ∧ idleRatio 0 = NV.nan ∧ finops_score 0 = 1 := by
  have h : idleRatio 0 = NV.nan := by simp [idleRatio, idle_cost, nvDiv]
  exact ⟨rfl, h, by simp [finops_score, h, nvLtQ]⟩

/-- C2 counterexample: the score does not transition at the documented
boundary 50 (it is 3 at totals 49, 50 and 51 alike), and monotone
non-increase fails across total 0: for 0 ≤ 45 the score rises from 1 to 3. -/
theorem c2_counterexample :
    (finops_score 49 = finops_score 51 ∧ finops_score 50 = finops_score 49) ∧
      ((0 : ℚ) ≤ 45 ∧ finops_score 0 < finops_score 45) := by
  have h49 := finops_score_of_pos 49 (by norm_num)
  have h50 := finops_score_of_pos 50 (by norm_num)
  have h51 := finops_score_of_pos 51 (by norm_num)
  have h45 := finops_score_of_pos 45 (by norm_num)
  have h0 : finops_score 0 = 1 := by
    have h : idleRatio 0 = NV.nan := by simp [idleRatio, idle_cost, nvDiv]
    simp [finops_score, h, nvLtQ]
  refine ⟨⟨by rw [h49, h51], by rw [h50, h49]⟩, by norm_num, ?_⟩
  rw [h0, h45]
  norm_num

/-- C2 (amended): on strictly positive totals the score is the constant 3,
so it transitions at none of the documented boundaries (50, 100, 200, 300)
and is trivially monotonically non-increasing there; monotonicity fails only
across total 0, where the NaN fallthrough yields score 1. -/
theorem c2_amended_constant_on_pos (t1 t2 : ℚ) (h1 : 0 < t1) (hle : t1 ≤ t2) :
    finops_score t1 = 3 ∧ finops_score t2 = finops_score t1 ∧
      finops_score t2 ≤ finops_score t1 := by
  have h2 : 0 < t2 := lt_of_lt_of_le h1 hle
  rw [finops_score_of_pos t1 h1, finops_score_of_pos t2 h2]
  exact ⟨rfl, rfl, le_refl 3⟩

/-- C2 witness: the amended property instantiated at totals 45 and 250. -/
theorem c2_witness :
    (0 : ℚ) < 45 ∧ (45 : ℚ) ≤ 250 ∧
      (finops_score 45 = 3 ∧ finops_score 250 = finops_score 45 ∧
        finops_score 250 ≤ finops_score 45) :=
  ⟨by norm_num, by norm_num, c2_amended_constant_on_pos 45 250 (by norm_num) (by norm_num)⟩

/-- C5: the scoring reducer is a deterministic pure function — any two
applications to equal aggregate inputs yield the same score; no state or
I/O enters the Lean model, which is a total function from the total to ℕ. -/
theorem c5_deterministic (t1 t2 : ℚ) (h : t1 = t2) :
    finops_score t1 = finops_score t2 := by rw [h]

/-- C5 witness: determinism instantiated at total 45. -/
theorem c5_witness : (45 : ℚ) = 45 ∧ finops_score 45 = finops_score 45 :=
  ⟨rfl, c5_deterministic 45 45 rfl⟩

/-- C6 counterexample: no fixed percentage of the per-service peak cost
reproduces the idle cost the code computes.  The single-service tables
[EC2@10] and [EC2@10, EC2@20] have idle costs 3 and 9 but peaks 10 and 20,
forcing the percentage to be both 3/10 and 9/20. -/
theorem c6_counterexample :
    ¬ ∃ p : ℚ, ∀ df : List CostRecord, tableIdleCost df = glossaryIdleCost p df := by
  rintro ⟨p, h⟩
  have h1 := h [⟨"EC2", 10⟩]
  have h2 := h [⟨"EC2", 10⟩, ⟨"EC2", 20⟩]
  have e1 : servicePeaks [CostRecord.mk "EC2" 10] = [10] := by decide
  have e2 : servicePeaks [CostRecord.mk "EC2" 10, CostRecord.mk "EC2" 20] = [20] := by decide
  rw [glossaryIdleCost, e1] at h1
  rw [glossaryIdleCost, e2] at h2
  simp [tableIdleCost, idle_cost, totalCost] at h1 h2
  norm_num at h1 h2
  linarith

/-- C6 (amended): the idle cost used by scoring and reporting equals a
fixed percentage (30%) of the table's summed total cost — not of the peak
cost per service — and together with the 70% used cost it partitions the
total. -/
theorem c6_amended_idle_is_30pct_of_total (df : List CostRecord) :
    tableIdleCost df = (3 / 10) * totalCost df ∧
      used_cost (totalCost df) + tableIdleCost df = totalCost df := by
  constructor
  · rw [tableIdleCost, idle_cost]; ring
  · rw [tableIdleCost, idle_cost, used_cost]; ring

/-- C7: the loader equals the spec's cleaning pass — every row whose date
fails to parse is dropped, every surviving row keeps its parsed date, and
every unparseable cost is replaced by 0; the function is total, so no
malformed value raises. -/
theorem c7_loader_drops_and_zero_fills
    (parseDate : String → Option ℕ) (parseCost : String → Option ℚ)
    (rows : List RawRow) :
    load_data parseDate parseCost rows = cleanedRows parseDate parseCost rows := by
  induction rows with
  | nil => rfl
  | cons r rs ih =>
      simp only [load_data, cleanedRows, List.filterMap_cons, List.filter_cons,
        List.map_cons] at *
      cases h : parseDate r.date with
      | none => simpa [h] using ih
      | some d => simpa [h] using ih

/-- C8: if the reportlab import or the document build raises, the PDF
branch degrades to the informational warning instead of crashing, and the
rest of the render pass (the footer) is identical whatever the PDF branch
does. -/
theorem c8_pdf_degrades_gracefully (e : String) (total used idle : ℚ) (score : ℕ) :
    pdfExport (Except.error e) total used idle score =
        PdfResult.warning "📄 PDF export requires reportlab (optional)" ∧
      ∀ deps : Except String Unit,
        (renderTail deps total used idle score).2 =
          (renderTail (Except.error e) total used idle score).2 :=
  ⟨rfl, fun _ => rfl⟩

/-- C9 counterexample: the CSV download is not a verbatim re-serialization
of the input file.  With a date parser that rejects "baddate", the single
input row is dropped during loading, so the exported CSV is empty and
differs from the input's records. -/
theorem c9_counterexample :
    exportCsv (fun n => toString n) (fun q => toString q)
        (load_data (fun s => if s = "2024-01-01" then some 0 else none)
          (fun s => if s = "1" then some 1 else none)
          [RawRow.mk "baddate" "1"]) ≠ [RawRow.mk "baddate" "1"] := by
  decide

/-- C9 (amended): the CSV download re-serializes the loaded (cleaned)
table, which reproduces the input's records exactly when every row's date
and cost parse and the serializers invert those parses; rows dropped or
coerced during loading are not restored. -/
theorem c9_roundtrip_when_all_parse
    (parseDate : String → Option ℕ) (parseCost : String → Option ℚ)
    (showDate : ℕ → String) (showCost : ℚ → String) (rows : List RawRow)
    (hd : ∀ r ∈ rows, ∃ d, parseDate r.date = some d ∧ showDate d = r.date)
    (hc : ∀ r ∈ rows, ∃ c, parseCost r.cost = some c ∧ showCost c = r.cost) :
    exportCsv showDate showCost (load_data parseDate parseCost rows) = rows := by
  induction rows with
  | nil => rfl
  | cons r rs ih =>
      obtain ⟨d, hpd, hsd⟩ := hd r (List.mem_cons_self r rs)
      obtain ⟨c, hpc, hsc⟩ := hc r (List.mem_cons_self r rs)
      have ih' := ih (fun x hx => hd x (List.mem_cons_of_mem r hx))
        (fun x hx => hc x (List.mem_cons_of_mem r hx))
      simp only [load_data, List.filterMap_cons, hpd, hpc, Option.getD_some,
        exportCsv, List.map_cons] at *
      refine List.cons_eq_cons.mpr ⟨?_, ih'⟩
      cases r
      simp_all

/-- C9 witness: the amended round trip at a one-row file whose date and
cost both parse and re-serialize verbatim. -/
theorem c9_witness :
    exportCsv (fun _ => "2024-01-01") (fun _ => "1")
        (load_data (fun _ => some 0) (fun _ => some 1)
          [RawRow.mk "2024-01-01" "1"]) = [RawRow.mk "2024-01-01" "1"] :=
  c9_roundtrip_when_all_parse _ _ _ _ _
    (by
      intro r hr
      simp only [List.mem_singleton] at hr
      subst hr
      exact ⟨0, rfl, rfl⟩)
    (by
      intro r hr
      simp only [List.mem_singleton] at hr
      subst hr
      exact ⟨1, rfl, rfl⟩)

/-- C10: each simulator iteration appends exactly one record — the file
grows by one, every previously written record is unchanged in place, and
the new suffix is exactly the single new record; nothing is mutated or
deleted. -/
theorem c10_simulator_appends_one (file : List SimRecord) (r : SimRecord) :
    (simStep file r).length = file.length + 1 ∧
      (simStep file r).take file.length = file ∧
      (simStep file r).drop file.length = [r] := by
  refine ⟨?_, ?_, ?_⟩ <;> simp [simStep]

end CloudCost
